import Mathlib

/-!
Shallow embedding of the sensor-acquisition / thermal-safety core of
`Platform.cpp` (RepRapFirmware, Ormerod port): the tick state machine,
the averaging filters, thermistor math, Z-probe reading, and the
non-volatile configuration store with its setters.

Machine integers are modelled as `Nat`/`Int` (with explicit 2^32 wrap
where the code relies on it); `float` quantities are modelled as `ℚ`,
with the transcendental functions `exp`/`log` from the external C math
library abstracted as function parameters.  The `AveragingFilter`
class template and the numeric configuration constants are declared in
headers that are not part of the source under study; those are
modelled from the specification and marked as such below.
-/

namespace RepRapPlatform

/-- Number of heaters (bed + hot end).  The exact value comes from a
configuration header that is not in the sources; the claims do not
depend on it. -/
def HEATERS : Nat := 2

/-- Number of ADC readings averaged per thermistor.  Value from the
missing configuration header; the claims do not depend on it. -/
def numThermistorReadingsAveraged : Nat := 32

/-- Number of ADC readings averaged per Z-probe filter.  Value from the
missing configuration header; the claims do not depend on it. -/
def numZProbeReadingsAveraged : Nat := 8

/-- Highest raw 12-bit ADC value. -/
def adRangeReal : Nat := 4095

/-- Raw readings at or above this value mean the thermistor is
disconnected (value from the missing configuration header). -/
def adDisconnectedReal : Nat := 4092

/-- Highest oversampled ("virtual") ADC value, as a rational for the
floating-point arithmetic of `GetTemperature`. -/
def adRangeVirtual : ℚ := 8191

/-- Oversampled reading at or above which the thermistor counts as
disconnected (value from the missing configuration header). -/
def adDisconnectedVirtual : Int := 8184

/-- Absolute zero in degrees Celsius; also the "thermistor
disconnected" sentinel temperature. -/
def ABS_ZERO : ℚ := -27315/100

/-- Error-code bit raised by the tick ISR on a bad thermistor reading.
Modelled from the spec: the mask constant lives in a missing header;
it is modelled as bit 0, and no claim depends on the bit position. -/
def ErrorBadTemp : Nat := 1

/-- Magic value tagging a valid non-volatile data block
(`FlashData::magicValue`; the numeric value, from the missing header,
is irrelevant to the claims). -/
def magicValue : Nat := 42

/-- Proposition that the bad-temperature fault bit is set in an
error-code word. -/
def hasBadTempBit (e : Nat) : Prop := Nat.testBit e 0 = true

/-! ## Averaging filter

Modelled from the spec: the `AveragingFilter<N>` class template is
declared in a header that is not among the sources; its contract is
spec §4.1: `Init` pre-seeds the buffer and zeroes the fill count,
`ProcessReading` replaces the oldest slot, maintains the running sum
and saturates the fill count at `N`, and `IsValid` holds once the
fill count has reached `N`. -/

structure AveragingFilter where
  buf : List Nat
  ind : Nat
  sum : Nat
  count : Nat
  deriving DecidableEq

namespace AveragingFilter

/-- Reset the filter: fill count zero, buffer pre-seeded with
`v` repeated `N` times, sum matching the seeded buffer. -/
def reset (N v : Nat) : AveragingFilter :=
  { buf := List.replicate N v, ind := 0, sum := N * v, count := 0 }

/-- Feed one raw sample: subtract the slot being overwritten from the
running sum, store the new sample, advance the cursor modulo `N`, and
increment the fill count, saturating at `N`. -/
def processReading (N : Nat) (f : AveragingFilter) (x : Nat) : AveragingFilter :=
  { buf := f.buf.set f.ind x
    ind := (f.ind + 1) % N
    sum := f.sum + x - f.buf.getD f.ind 0
    count := min (f.count + 1) N }

/-- The filter is valid once a full cycle of genuine samples has been
processed. -/
def isValid (N : Nat) (f : AveragingFilter) : Prop := N ≤ f.count

instance (N : Nat) (f : AveragingFilter) : Decidable (isValid N f) := by
  unfold isValid; infer_instance

end AveragingFilter

/-- Feed a list of raw samples to a filter in order. -/
def feedFilter (N : Nat) (f : AveragingFilter) (rs : List Nat) : AveragingFilter :=
  rs.foldl (fun g x => g.processReading N x) f

/-! ## PID / thermistor calibration parameters -/

/-- Per-heater calibration record (`PidParameters` in the source).
`float` fields are modelled as `ℚ`. -/
structure PidParameters where
  kI : ℚ
  kD : ℚ
  kP : ℚ
  kT : ℚ
  kS : ℚ
  fullBand : ℚ
  pidMin : ℚ
  pidMax : ℚ
  thermistorBeta : ℚ
  thermistorInfR : ℚ
  thermistorSeriesR : ℚ
  adcLowOffset : ℚ
  adcHighOffset : ℚ
  deriving DecidableEq

namespace PidParameters

/-- Accessor for the reference resistance (declared in the missing
header as a trivial getter). -/
def GetRInf (p : PidParameters) : ℚ := p.thermistorInfR

/-- Accessor for the Beta coefficient (declared in the missing header
as a trivial getter). -/
def GetBeta (p : PidParameters) : ℚ := p.thermistorBeta

/-- Recover R25 from the stored fields:
`thermistorInfR * exp(thermistorBeta / (25.0 - ABS_ZERO))`.
`E` abstracts the C library `exp`. -/
def GetThermistorR25 (E : ℚ → ℚ) (p : PidParameters) : ℚ :=
  p.thermistorInfR * E (p.thermistorBeta / (25 - ABS_ZERO))

/-- Store a user-supplied (R25, Beta) pair:
`thermistorInfR = r25 * exp(-beta / (25.0 - ABS_ZERO))`, and Beta
verbatim.  `E` abstracts the C library `exp`. -/
def SetThermistorR25AndBeta (E : ℚ → ℚ) (p : PidParameters) (r25 beta : ℚ) :
    PidParameters :=
  { p with thermistorInfR := r25 * E (-beta / (25 - ABS_ZERO))
           thermistorBeta := beta }

end PidParameters

/-! ## Z-probe calibration parameters -/

/-- Z-probe calibration variant.  Modelled from the spec: the struct is
declared in a missing header; its fields (trigger ADC threshold, stop
height, temperature compensation law) are taken from spec §3 and the
uses in `Platform.cpp`. -/
structure ZProbeParameters where
  adcValue : Int
  height : ℚ
  calibTemperature : ℚ
  temperatureCoefficient : ℚ
  deriving DecidableEq

/-- Default trigger threshold used by `ZProbeParameters::Init` (value
from the missing configuration header). -/
def Z_PROBE_AD_VALUE : Int := 400

/-- Modelled from the spec: `ZProbeParameters::Init(h)` resets the
variant to its compiled-in defaults with stop height `h`. -/
def ZProbeParameters.reset (h : ℚ) : ZProbeParameters :=
  { adcValue := Z_PROBE_AD_VALUE, height := h, calibTemperature := 25,
    temperatureCoefficient := 0 }

/-! ## Non-volatile configuration record -/

/-- An IPv4-style 4-byte address, unrolled into four fields. -/
structure Ip4 where
  b0 : Nat
  b1 : Nat
  b2 : Nat
  b3 : Nat
  deriving DecidableEq

/-- The persisted configuration block (`FlashData` in the source).
Field list follows the assignments in `Platform::Init`.  The Z-probe
axis flags are unrolled into a triple (AXES = 3). -/
structure FlashData where
  magic : Nat
  compatibility : Nat
  ipAddress : Ip4
  netMask : Ip4
  gateWay : Ip4
  macAddress : Nat
  zProbeType : Int
  zProbeAxes : Bool × Bool × Bool
  switchZProbeParameters : ZProbeParameters
  irZProbeParameters : ZProbeParameters
  alternateZProbeParameters : ZProbeParameters
  pidParams : List PidParameters
  resetReason : Nat
  neverUsedRam : Nat
  deriving DecidableEq

/-! ## Platform state -/

/-- The mutable Platform state touched by the core under study.
`writeCount` counts calls to `WriteNvData` (writes of the backing
store); `heaterPower` records the clamped power last commanded to each
heater by `SetHeater`; `zProbeModPin` is the level of the probe
modulation output. -/
structure Platform where
  nvData : FlashData
  writeCount : Nat
  tickState : Nat
  currentHeater : Nat
  thermistorFilters : List AveragingFilter
  zProbeOnFilter : AveragingFilter
  zProbeOffFilter : AveragingFilter
  thermistorOverheatSums : List Nat
  errorCodeBits : Nat
  heaterPower : List ℚ
  zProbeModPin : Bool

/-- `Platform::WriteNvData`: one write of the whole record to the
backing store. -/
def WriteNvData (s : Platform) : Platform :=
  { s with writeCount := s.writeCount + 1 }

/-- Interpretation of a `uint32_t` value as `int32_t`
(the `(int32_t)` casts in `Platform::ZProbe`). -/
def toInt32 (n : Nat) : Int :=
  if n % 2 ^ 32 < 2 ^ 31 then ((n % 2 ^ 32 : Nat) : Int)
  else ((n % 2 ^ 32 : Nat) : Int) - 2 ^ 32

/-- `Platform::ZProbe`: the scaled probe reading.  Types 1 and 3 use
unsigned arithmetic `(onSum + offSum) / (8·N)`; type 2 uses signed
(truncating) arithmetic `((int32_t)onSum - (int32_t)offSum) / (4·N)`.
The signedness of the type-2 division is modelled from the spec and the
source comment ("because of noise, it is possible to get a negative
reading"), the constant `numZProbeReadingsAveraged` being declared in a
missing header.  Returns 0 when either filter is not yet valid or the
probe type has no filter law. -/
def ZProbe (s : Platform) : Int :=
  if s.zProbeOnFilter.isValid numZProbeReadingsAveraged ∧
     s.zProbeOffFilter.isValid numZProbeReadingsAveraged then
    if s.nvData.zProbeType = 1 ∨ s.nvData.zProbeType = 3 then
      (((s.zProbeOnFilter.sum + s.zProbeOffFilter.sum) /
        (8 * numZProbeReadingsAveraged) : Nat) : Int)
    else if s.nvData.zProbeType = 2 then
      Int.tdiv (toInt32 s.zProbeOnFilter.sum - toInt32 s.zProbeOffFilter.sum)
        (4 * numZProbeReadingsAveraged)
    else 0
  else 0

/-- `Platform::GetZProbeType`. -/
def GetZProbeType (s : Platform) : Int := s.nvData.zProbeType

/-- `Platform::InitZProbe`: re-initialise both probe filters with seed
0 and drive the modulation output for the IR-based probe types (types
1 and 2: high, enabling the IR LED; type 3: low, enabling the
alternate sensor). -/
def InitZProbe (s : Platform) : Platform :=
  let s1 := { s with zProbeOnFilter := AveragingFilter.reset numZProbeReadingsAveraged 0
                     zProbeOffFilter := AveragingFilter.reset numZProbeReadingsAveraged 0 }
  if s1.nvData.zProbeType = 1 ∨ s1.nvData.zProbeType = 2 then
    { s1 with zProbeModPin := true }
  else if s1.nvData.zProbeType = 3 then
    { s1 with zProbeModPin := false }
  else s1

/-- `Platform::SetZProbeType`: clamp out-of-range types to 0, persist
only on an actual change, then re-initialise the probe. -/
def SetZProbeType (s : Platform) (pt : Int) : Platform :=
  let newZProbeType : Int := if 0 ≤ pt ∧ pt ≤ 3 then pt else 0
  let s1 :=
    if newZProbeType ≠ s.nvData.zProbeType then
      WriteNvData { s with nvData := { s.nvData with zProbeType := newZProbeType } }
    else s
  InitZProbe s1

/-- `Platform::SetZProbeAxes`: store the per-axis probe-applicability
flags and write the backing store.  The source performs no comparison
with the current value: it writes unconditionally. -/
def SetZProbeAxes (s : Platform) (axes : Bool × Bool × Bool) : Platform :=
  WriteNvData { s with nvData := { s.nvData with zProbeAxes := axes } }

/-- `Platform::SetZProbeParameters`: update the calibration variant
selected by the current probe type, persisting only on change; returns
false for an out-of-range stored type. -/
def SetZProbeParameters (s : Platform) (params : ZProbeParameters) :
    Platform × Bool :=
  if s.nvData.zProbeType = 0 then
    (if s.nvData.switchZProbeParameters ≠ params then
      (WriteNvData { s with nvData := { s.nvData with switchZProbeParameters := params } }, true)
    else (s, true))
  else if s.nvData.zProbeType = 1 ∨ s.nvData.zProbeType = 2 then
    (if s.nvData.irZProbeParameters ≠ params then
      (WriteNvData { s with nvData := { s.nvData with irZProbeParameters := params } }, true)
    else (s, true))
  else if s.nvData.zProbeType = 3 then
    (if s.nvData.alternateZProbeParameters ≠ params then
      (WriteNvData { s with nvData := { s.nvData with alternateZProbeParameters := params } }, true)
    else (s, true))
  else (s, false)

/-- Enumerator `me` of the `Compatibility` enum (values from the
missing header; only distinctness matters). -/
def compatMe : Nat := 1

/-- Enumerator `reprapFirmware` of the `Compatibility` enum. -/
def compatReprapFirmware : Nat := 2

/-- Enumerator `marlin` of the `Compatibility` enum. -/
def compatMarlin : Nat := 3

/-- `Platform::SetEmulating`: reject unsupported firmwares, normalise
`reprapFirmware` to `me`, persist only on change. -/
def SetEmulating (s : Platform) (c : Nat) : Platform :=
  if c ≠ compatMe ∧ c ≠ compatReprapFirmware ∧ c ≠ compatMarlin then s
  else
    let c1 := if c = compatReprapFirmware then compatMe else c
    if c1 ≠ s.nvData.compatibility then
      WriteNvData { s with nvData := { s.nvData with compatibility := c1 } }
    else s

/-- `Platform::UpdateNetworkAddress`: copy each differing byte and
report whether anything changed (loop over the 4 bytes, unrolled). -/
def updateNetworkAddress (dst src : Ip4) : Ip4 × Bool :=
  let r0 := if dst.b0 ≠ src.b0 then (src.b0, true) else (dst.b0, false)
  let r1 := if dst.b1 ≠ src.b1 then (src.b1, true) else (dst.b1, false)
  let r2 := if dst.b2 ≠ src.b2 then (src.b2, true) else (dst.b2, false)
  let r3 := if dst.b3 ≠ src.b3 then (src.b3, true) else (dst.b3, false)
  (⟨r0.1, r1.1, r2.1, r3.1⟩, r0.2 || r1.2 || r2.2 || r3.2)

/-- `Platform::SetIPAddress`: update the stored IP address, persisting
only when a byte changed. -/
def SetIPAddress (s : Platform) (ip : Ip4) : Platform :=
  let r := updateNetworkAddress s.nvData.ipAddress ip
  let s1 := { s with nvData := { s.nvData with ipAddress := r.1 } }
  if r.2 then WriteNvData s1 else s1

/-- `Platform::SetNetMask`. -/
def SetNetMask (s : Platform) (nm : Ip4) : Platform :=
  let r := updateNetworkAddress s.nvData.netMask nm
  let s1 := { s with nvData := { s.nvData with netMask := r.1 } }
  if r.2 then WriteNvData s1 else s1

/-- `Platform::SetGateWay`. -/
def SetGateWay (s : Platform) (gw : Ip4) : Platform :=
  let r := updateNetworkAddress s.nvData.gateWay gw
  let s1 := { s with nvData := { s.nvData with gateWay := r.1 } }
  if r.2 then WriteNvData s1 else s1

/-- Placeholder record used as the out-of-range default of list
lookups; guards in the source keep indices in range. -/
def dummyPid : PidParameters :=
  { kI := 0, kD := 0, kP := 0, kT := 0, kS := 0, fullBand := 0, pidMin := 0,
    pidMax := 0, thermistorBeta := 0, thermistorInfR := 0, thermistorSeriesR := 0,
    adcLowOffset := 0, adcHighOffset := 0 }

/-- `Platform::SetPidParameters`: replace one heater's calibration,
persisting only when the heater index is in range and the value
actually differs. -/
def SetPidParameters (s : Platform) (heater : Nat) (params : PidParameters) :
    Platform :=
  if heater < HEATERS ∧ params ≠ s.nvData.pidParams.getD heater dummyPid then
    WriteNvData { s with nvData :=
      { s.nvData with pidParams := s.nvData.pidParams.set heater params } }
  else s

/-- `Platform::SetHeater`: record the commanded power, clamped to
[0, 1] as the source clamps before converting to a PWM byte. -/
def SetHeater (s : Platform) (heater : Nat) (power : ℚ) : Platform :=
  { s with heaterPower := s.heaterPower.set heater (min 1 (max 0 power)) }

/-! ## The tick driver -/

/-- The heater filter as the tick driver sees it after feeding this
invocation's ADC result `r` into the current heater's filter. -/
def currentFilterAfter (s : Platform) (r : Nat) : AveragingFilter :=
  (s.thermistorFilters.getD s.currentHeater
    (AveragingFilter.reset numThermistorReadingsAveraged 0)).processReading
      numThermistorReadingsAveraged r

/-- The interlock comparison of the tick ISR: the (just fed) filter is
valid and its sum is below the precomputed overheat-equivalent sum or
at/above the disconnect-equivalent sum. -/
def interlockTrips (s : Platform) (r : Nat) : Prop :=
  (currentFilterAfter s r).isValid numThermistorReadingsAveraged ∧
    ((currentFilterAfter s r).sum < s.thermistorOverheatSums.getD s.currentHeater 0 ∨
     adDisconnectedReal * numThermistorReadingsAveraged ≤ (currentFilterAfter s r).sum)

instance (s : Platform) (r : Nat) : Decidable (interlockTrips s r) := by
  unfold interlockTrips; infer_instance

/-- `Platform::Tick`: one invocation of the tick ISR.  `r` is the
result of the ADC conversion fetched by this invocation.  States 1 and
3 feed the current heater's filter, run the overheat/disconnect
interlock and advance the heater index with wrap-around; state 2 feeds
the probe's on-filter; state 4 feeds the probe's off-filter and falls
through to the state-0 behaviour, which drives the modulation pin for
a modulated IR probe and moves to state 1. -/
def tick (s : Platform) (r : Nat) : Platform :=
  if s.tickState = 1 ∨ s.tickState = 3 then
    let s1 := { s with thermistorFilters :=
      s.thermistorFilters.set s.currentHeater (currentFilterAfter s r) }
    let s2 :=
      if interlockTrips s r then
        { SetHeater s1 s.currentHeater 0 with
            errorCodeBits := s1.errorCodeBits ||| ErrorBadTemp }
      else s1
    { s2 with
        currentHeater := if s.currentHeater + 1 = HEATERS then 0 else s.currentHeater + 1
        tickState := s.tickState + 1 }
  else if s.tickState = 2 then
    { s with
        zProbeOnFilter := s.zProbeOnFilter.processReading numZProbeReadingsAveraged r
        zProbeModPin := if s.nvData.zProbeType = 2 then false else s.zProbeModPin
        tickState := s.tickState + 1 }
  else if s.tickState = 4 then
    { s with
        zProbeOffFilter := s.zProbeOffFilter.processReading numZProbeReadingsAveraged r
        zProbeModPin := if s.nvData.zProbeType = 2 then true else s.zProbeModPin
        tickState := 1 }
  else
    { s with
        zProbeModPin := if s.nvData.zProbeType = 2 then true else s.zProbeModPin
        tickState := 1 }

/-! ## Thermistor model -/

/-- Truncation of a rational toward zero, as the C `(int)` cast of a
`float`. -/
def ratTrunc (q : ℚ) : Int := if q < 0 then ⌈q⌉ else ⌊q⌋

/-- `Platform::GetTemperature`, taking the raw filtered reading
(`GetRawTemperature`, whose body is in a missing header) as the
argument `rawTemp`.  `L` abstracts the C library `log`. -/
def GetTemperature (L : ℚ → ℚ) (p : PidParameters) (rawTemp : Int) : ℚ :=
  let reading : ℚ := (rawTemp : ℚ) + 1/2
  let rawTemp2 : Int :=
    if p.adcHighOffset < 0 then rawTemp - ratTrunc p.adcHighOffset else rawTemp
  if adDisconnectedVirtual ≤ rawTemp2 then ABS_ZERO
  else
    let reading2 := reading - p.adcLowOffset
    let reading3 := reading2 *
      ((adRangeVirtual + 1) / (adRangeVirtual + 1 + p.adcHighOffset - p.adcLowOffset))
    let resistance := reading3 * p.thermistorSeriesR / ((adRangeVirtual + 1) - reading3)
    if resistance ≤ p.GetRInf then 2000
    else ABS_ZERO + p.GetBeta / L (resistance / p.GetRInf)

/-! ## Non-volatile load (the `nvData` part of `Platform::Init`)

The compiled-in defaults below live in configuration headers that are
not among the sources; their numeric values are placeholders and no
claim depends on them. -/

/-- Default IP address (`IP_ADDRESS`). -/
def IP_ADDRESS : Ip4 := ⟨192, 168, 1, 10⟩

/-- Default netmask (`NET_MASK`). -/
def NET_MASK : Ip4 := ⟨255, 255, 255, 0⟩

/-- Default gateway (`GATE_WAY`). -/
def GATE_WAY : Ip4 := ⟨192, 168, 1, 1⟩

/-- Default MAC address (`MAC_ADDRESS`), packed into one number. -/
def MAC_ADDRESS : Nat := 0xBED0

/-- Default per-axis probe applicability (`Z_PROBE_AXES`). -/
def Z_PROBE_AXES : Bool × Bool × Bool := (true, true, true)

/-- Default probe stop height (`Z_PROBE_STOP_HEIGHT`). -/
def Z_PROBE_STOP_HEIGHT : ℚ := 7/10

/-- Default thermistor series resistances per heater
(`defaultThermistorSeriesRs`). -/
def defaultThermistorSeriesRs : List ℚ := [4700, 4700]

/-- Default thermistor resistances at 25°C per heater
(`defaultThermistor25RS`). -/
def defaultThermistor25RS : List ℚ := [10000, 100000]

/-- Default thermistor Beta coefficients per heater
(`defaultThermistorBetas`). -/
def defaultThermistorBetas : List ℚ := [3988, 4138]

/-- Default PID integral gains per heater (`defaultPidKis`). -/
def defaultPidKis : List ℚ := [5, 1/10]

/-- Default PID derivative gains per heater (`defaultPidKds`). -/
def defaultPidKds : List ℚ := [500, 100]

/-- Default PID proportional gains per heater (`defaultPidKps`). -/
def defaultPidKps : List ℚ := [-1, 10]

/-- Default PID feed-forward terms per heater (`defaultPidKts`). -/
def defaultPidKts : List ℚ := [27/10, 4/10]

/-- Default PID consistent-state terms per heater (`defaultPidKss`). -/
def defaultPidKss : List ℚ := [1, 1]

/-- Default PID band widths per heater (`defaultFullBand`). -/
def defaultFullBand : List ℚ := [5, 30]

/-- Default PID minimum outputs per heater (`defaultPidMin`). -/
def defaultPidMin : List ℚ := [0, 0]

/-- Default PID maximum outputs per heater (`defaultPidMax`). -/
def defaultPidMax : List ℚ := [255, 180]

/-- The per-heater calibration built by the default branch of
`Platform::Init`: every field of `pidParams[i]` is assigned from the
compiled-in default tables, with reference resistance and Beta set
together through `SetThermistorR25AndBeta` and both ADC offsets
zeroed. -/
def defaultPid (E : ℚ → ℚ) (i : Nat) : PidParameters :=
  PidParameters.SetThermistorR25AndBeta E
    { kI := defaultPidKis.getD i 0
      kD := defaultPidKds.getD i 0
      kP := defaultPidKps.getD i 0
      kT := defaultPidKts.getD i 0
      kS := defaultPidKss.getD i 0
      fullBand := defaultFullBand.getD i 0
      pidMin := defaultPidMin.getD i 0
      pidMax := defaultPidMax.getD i 0
      thermistorBeta := 0
      thermistorInfR := 0
      thermistorSeriesR := defaultThermistorSeriesRs.getD i 0
      adcLowOffset := 0
      adcHighOffset := 0 }
    (defaultThermistor25RS.getD i 0) (defaultThermistorBetas.getD i 0)

/-- The record built by the default branch of `Platform::Init` when
the magic value mismatches: every field set to compiled-in defaults,
probe type 0 (the switch), per-heater calibration from the default
R25/Beta tables, and the magic value stamped last.  `nu` is the
never-used-RAM high-water mark measured by `GetStackUsage`. -/
def defaultNvData (E : ℚ → ℚ) (nu : Nat) : FlashData :=
  { magic := magicValue
    compatibility := compatMe
    ipAddress := IP_ADDRESS
    netMask := NET_MASK
    gateWay := GATE_WAY
    macAddress := MAC_ADDRESS
    zProbeType := 0
    zProbeAxes := Z_PROBE_AXES
    switchZProbeParameters := ZProbeParameters.reset 0
    irZProbeParameters := ZProbeParameters.reset Z_PROBE_STOP_HEIGHT
    alternateZProbeParameters := ZProbeParameters.reset Z_PROBE_STOP_HEIGHT
    pidParams := (List.range HEATERS).map (defaultPid E)
    resetReason := 0
    neverUsedRam := nu }

/-- The `nvData` initialisation of `Platform::Init`: read the persisted
block; on a magic mismatch rebuild it from compiled-in defaults and
write it back (the write count is the second component); on a match
use the persisted copy verbatim with no write. -/
def loadNvData (E : ℚ → ℚ) (persisted : FlashData) (nu : Nat) : FlashData × Nat :=
  if persisted.magic ≠ magicValue then (defaultNvData E nu, 1) else (persisted, 0)

/-! ## Concrete states used by the witnesses -/

/-- A concrete flash record with a valid magic value and the modulated
IR probe selected. -/
def baseFlashData : FlashData :=
  { magic := magicValue
    compatibility := compatMe
    ipAddress := IP_ADDRESS
    netMask := NET_MASK
    gateWay := GATE_WAY
    macAddress := MAC_ADDRESS
    zProbeType := 2
    zProbeAxes := Z_PROBE_AXES
    switchZProbeParameters := ZProbeParameters.reset 0
    irZProbeParameters := ZProbeParameters.reset Z_PROBE_STOP_HEIGHT
    alternateZProbeParameters := ZProbeParameters.reset Z_PROBE_STOP_HEIGHT
    pidParams := [dummyPid, dummyPid]
    resetReason := 0
    neverUsedRam := 0 }

/-- A concrete platform state: freshly reset probe filters, heater
filters one sample short of a full cycle, no error bits, both heaters
on full power. -/
def basePlatform : Platform :=
  { nvData := baseFlashData
    writeCount := 0
    tickState := 0
    currentHeater := 0
    thermistorFilters :=
      [ { buf := List.replicate numThermistorReadingsAveraged 0, ind := 0, sum := 0,
          count := numThermistorReadingsAveraged - 1 },
        AveragingFilter.reset numThermistorReadingsAveraged 0 ]
    zProbeOnFilter := AveragingFilter.reset numZProbeReadingsAveraged 0
    zProbeOffFilter := AveragingFilter.reset numZProbeReadingsAveraged 0
    thermistorOverheatSums := [100, 100]
    errorCodeBits := 0
    heaterPower := [1, 1]
    zProbeModPin := false }

/-! ## Helper lemmas -/

/-- `InitZProbe` does not touch the non-volatile record. -/
theorem InitZProbe_nvData (s : Platform) : (InitZProbe s).nvData = s.nvData := by
  simp only [InitZProbe]
  split_ifs <;> rfl

/-- `InitZProbe` performs no backing-store write. -/
theorem InitZProbe_writeCount (s : Platform) :
    (InitZProbe s).writeCount = s.writeCount := by
  simp only [InitZProbe]
  split_ifs <;> rfl

/-- `InitZProbe` resets the probe on-filter. -/
theorem InitZProbe_onFilter (s : Platform) :
    (InitZProbe s).zProbeOnFilter = AveragingFilter.reset numZProbeReadingsAveraged 0 := by
  simp only [InitZProbe]
  split_ifs <;> rfl

/-- `InitZProbe` resets the probe off-filter. -/
theorem InitZProbe_offFilter (s : Platform) :
    (InitZProbe s).zProbeOffFilter = AveragingFilter.reset numZProbeReadingsAveraged 0 := by
  simp only [InitZProbe]
  split_ifs <;> rfl

/-- A freshly reset filter has fill count zero. -/
theorem count_reset (N v : Nat) : (AveragingFilter.reset N v).count = 0 := rfl

/-- Feeding a sample bumps the fill count, saturating at `N`. -/
theorem count_processReading (N : Nat) (f : AveragingFilter) (x : Nat) :
    (f.processReading N x).count = min (f.count + 1) N := rfl

/-- Fill count after feeding a list of samples: grows by the list
length, saturating at `N`. -/
theorem count_feedFilter (N : Nat) (rs : List Nat) (f : AveragingFilter)
    (hf : f.count ≤ N) :
    (feedFilter N f rs).count = min (f.count + rs.length) N := by
  induction rs generalizing f with
  | nil => simp [feedFilter]; omega
  | cons x rs ih =>
    have h1 : (f.processReading N x).count = min (f.count + 1) N := rfl
    have h2 := ih (f.processReading N x) (by rw [h1]; omega)
    simp only [feedFilter, List.foldl_cons] at h2 ⊢
    rw [h2, h1, List.length_cons]
    omega

/-- A filter reset and then fed fewer than `N` samples is not yet
valid. -/
theorem not_isValid_feed_reset (N v : Nat) (rs : List Nat) (h : rs.length < N) :
    ¬ (feedFilter N (AveragingFilter.reset N v) rs).isValid N := by
  unfold AveragingFilter.isValid
  rw [count_feedFilter N rs _ (by rw [count_reset]; omega), count_reset]
  omega

/-- The scaled probe reading is zero whenever either filter is not yet
valid. -/
theorem ZProbe_eq_zero_of_not_isValid (s : Platform)
    (h : ¬ s.zProbeOnFilter.isValid numZProbeReadingsAveraged ∨
         ¬ s.zProbeOffFilter.isValid numZProbeReadingsAveraged) :
    ZProbe s = 0 := by
  unfold ZProbe
  rw [if_neg (by tauto)]

/-- A `uint32` below `2^31` reads back unchanged as `int32`. -/
theorem toInt32_of_lt (n : Nat) (h : n < 2 ^ 31) : toInt32 n = (n : Int) := by
  unfold toInt32
  have hm : n % 2 ^ 32 = n := Nat.mod_eq_of_lt (by omega)
  rw [hm, if_pos h]

/-- Any error bits already set survive one tick invocation: the tick
driver only ever ORs into `errorCodeBits`. -/
theorem tick_errorCodeBits_cases (s : Platform) (r : Nat) :
    (tick s r).errorCodeBits = s.errorCodeBits ∨
    (tick s r).errorCodeBits = s.errorCodeBits ||| ErrorBadTemp := by
  unfold tick SetHeater
  repeat' split
  all_goals simp

/-- The bad-temperature bit is sticky across `tick`. -/
theorem hasBadTempBit_tick (s : Platform) (r : Nat)
    (h : hasBadTempBit s.errorCodeBits) : hasBadTempBit (tick s r).errorCodeBits := by
  rcases tick_errorCodeBits_cases s r with hc | hc <;>
    simp only [hasBadTempBit, hc, Nat.testBit_lor] at h ⊢ <;> simp [h]

/-! ## Claim theorems -/

/-- C3: whenever at least one of the two probe averaging filters is not
yet valid, the scaled probe reading `ZProbe` returns 0, regardless of
the configured probe type. -/
theorem zProbeNotReadyReturnsZero (s : Platform)
    (h : ¬ s.zProbeOnFilter.isValid numZProbeReadingsAveraged ∨
         ¬ s.zProbeOffFilter.isValid numZProbeReadingsAveraged) :
    ZProbe s = 0 :=
  ZProbe_eq_zero_of_not_isValid s h

/-- Witness for C3: in the concrete base state the probe on-filter is
freshly reset, hence invalid, and `ZProbe` evaluates to 0. -/
theorem zProbeNotReadyReturnsZero_witness :
    (¬ basePlatform.zProbeOnFilter.isValid numZProbeReadingsAveraged) ∧
    ZProbe basePlatform = 0 :=
  ⟨by decide, zProbeNotReadyReturnsZero basePlatform (Or.inl (by decide))⟩

/-- C6: for every calibration parameter set (in particular every value
of the ADC low/high offset corrections) and every raw filtered reading
at or beyond the disconnect threshold, `GetTemperature` returns the
disconnected sentinel (absolute zero). -/
theorem getTemperatureDisconnectSentinel (L : ℚ → ℚ) (p : PidParameters)
    (rawTemp : Int) (h : adDisconnectedVirtual ≤ rawTemp) :
    GetTemperature L p rawTemp = ABS_ZERO := by
  have h2 : adDisconnectedVirtual ≤
      (if p.adcHighOffset < 0 then rawTemp - ratTrunc p.adcHighOffset else rawTemp) := by
    split_ifs with hoff
    · have hc : ratTrunc p.adcHighOffset ≤ 0 := by
        unfold ratTrunc
        rw [if_pos hoff]
        exact Int.ceil_le.mpr (by exact_mod_cast hoff.le)
      omega
    · exact h
  simp only [GetTemperature]
  rw [if_pos h2]

/-- Witness for C6: a raw reading of 9000 is at/beyond the disconnect
threshold and yields absolute zero. -/
theorem getTemperatureDisconnectSentinel_witness :
    adDisconnectedVirtual ≤ 9000 ∧ GetTemperature (fun _ => 1) dummyPid 9000 = ABS_ZERO :=
  ⟨by decide, getTemperatureDisconnectSentinel (fun _ => 1) dummyPid 9000 (by decide)⟩

/-- C7: for positive `r25`, `SetThermistorR25AndBeta` stores
`r25 * exp(-beta / (25 - ABS_ZERO))` as the reference resistance and
`beta` as the Beta coefficient (the two fields updated together), and
`GetThermistorR25` then recovers `r25` exactly — `exp` abstracted as
any function with `exp x * exp (-x) = 1`. -/
theorem thermistorR25BetaRoundTrip (E : ℚ → ℚ) (p : PidParameters) (r25 beta : ℚ)
    (hE : ∀ x, E x * E (-x) = 1) (h : 0 < r25) :
    (PidParameters.SetThermistorR25AndBeta E p r25 beta).thermistorInfR
        = r25 * E (-beta / (25 - ABS_ZERO)) ∧
    (PidParameters.SetThermistorR25AndBeta E p r25 beta).thermistorBeta = beta ∧
    PidParameters.GetThermistorR25 E (PidParameters.SetThermistorR25AndBeta E p r25 beta)
        = r25 := by
  refine ⟨rfl, rfl, ?_⟩
  show r25 * E (-beta / (25 - ABS_ZERO)) * E (beta / (25 - ABS_ZERO)) = r25
  have hx := hE (beta / (25 - ABS_ZERO))
  calc r25 * E (-beta / (25 - ABS_ZERO)) * E (beta / (25 - ABS_ZERO))
      = r25 * (E (beta / (25 - ABS_ZERO)) * E (-(beta / (25 - ABS_ZERO)))) := by
        rw [neg_div]; ring
    _ = r25 * 1 := by rw [hx]
    _ = r25 := mul_one r25

/-- Witness for C7: with the constant-one stand-in for `exp` (which
satisfies `E x * E (-x) = 1`), storing R25 = 3, Beta = 5 and reading
R25 back returns 3. -/
theorem thermistorR25BetaRoundTrip_witness :
    (0:ℚ) < 3 ∧
    PidParameters.GetThermistorR25 (fun _ => 1)
      (PidParameters.SetThermistorR25AndBeta (fun _ => 1) dummyPid 3 5) = 3 :=
  ⟨by norm_num,
   (thermistorR25BetaRoundTrip (fun _ => 1) dummyPid 3 5
     (fun x => by norm_num) (by norm_num)).2.2⟩

/-- C10: for every probe type outside 0..3, `SetZProbeType` behaves
exactly as `SetZProbeType 0`, and the stored probe type afterwards is
0, never an out-of-range value. -/
theorem setZProbeTypeClampsOutOfRange (s : Platform) (pt : Int)
    (h : pt < 0 ∨ 3 < pt) :
    SetZProbeType s pt = SetZProbeType s 0 ∧
    (SetZProbeType s pt).nvData.zProbeType = 0 := by
  have hcl : (if 0 ≤ pt ∧ pt ≤ 3 then pt else 0) = (0 : Int) :=
    if_neg (by omega)
  have hcl0 : (if (0:Int) ≤ 0 ∧ (0:Int) ≤ 3 then (0:Int) else 0) = (0 : Int) :=
    if_pos (by omega)
  constructor
  · simp only [SetZProbeType, hcl, hcl0]
  · simp only [SetZProbeType, hcl, InitZProbe_nvData]
    split_ifs with hc
    · rfl
    · push_neg at hc
      exact hc.symm

/-- Witness for C10: probe type 7 is out of range; calling the setter
with it coincides with calling it with 0 and stores type 0. -/
theorem setZProbeTypeClampsOutOfRange_witness :
    ((7:Int) < 0 ∨ (3:Int) < 7) ∧
    (SetZProbeType basePlatform 7 = SetZProbeType basePlatform 0 ∧
     (SetZProbeType basePlatform 7).nvData.zProbeType = 0) :=
  ⟨by decide, setZProbeTypeClampsOutOfRange basePlatform 7 (by decide)⟩

/-- A truncating division by a positive divisor of a value at most the
negated divisor is negative. -/
theorem tdiv_neg_of_le_neg (x d : Int) (hd : 0 < d) (hx : x ≤ -d) :
    x.tdiv d < 0 := by
  have h3 : (-x).tdiv d = (-x) / d := Int.tdiv_eq_ediv (by omega) (le_of_lt hd)
  have h2 : (1:ℤ) ≤ (-x) / d := (Int.le_ediv_iff_mul_le hd).mpr (by omega)
  have h5 : (-x).tdiv d = -(x.tdiv d) := Int.neg_tdiv x d
  linarith

/-- C2: with both probe filters valid and probe type 2 (modulated IR),
`ZProbe` returns the signed truncating quotient
`(onFilterSum - offFilterSum) / (4 * numZProbeReadingsAveraged)`; in
particular the result is negative whenever the off-filter sum exceeds
the on-filter sum by at least one divisor (signed, not unsigned,
arithmetic).  The bounds `< 2^31` make the `int32_t` casts of the
unsigned sums value-preserving; they hold for any sum of
`numZProbeReadingsAveraged` 16-bit ADC readings. -/
theorem zProbeType2SignedScaling (s : Platform)
    (ht : s.nvData.zProbeType = 2)
    (hon : s.zProbeOnFilter.isValid numZProbeReadingsAveraged)
    (hoff : s.zProbeOffFilter.isValid numZProbeReadingsAveraged)
    (hbon : s.zProbeOnFilter.sum < 2 ^ 31)
    (hboff : s.zProbeOffFilter.sum < 2 ^ 31) :
    ZProbe s = Int.tdiv ((s.zProbeOnFilter.sum : Int) - (s.zProbeOffFilter.sum : Int))
        (4 * numZProbeReadingsAveraged) ∧
    ((s.zProbeOnFilter.sum : Int) + 4 * numZProbeReadingsAveraged ≤
        (s.zProbeOffFilter.sum : Int) → ZProbe s < 0) := by
  have hz : ZProbe s =
      Int.tdiv ((s.zProbeOnFilter.sum : Int) - (s.zProbeOffFilter.sum : Int))
        (4 * numZProbeReadingsAveraged) := by
    unfold ZProbe
    rw [if_pos ⟨hon, hoff⟩, if_neg (by simp [ht]), if_pos ht,
      toInt32_of_lt _ hbon, toInt32_of_lt _ hboff]
  refine ⟨hz, fun hle => ?_⟩
  rw [hz]
  exact tdiv_neg_of_le_neg _ _ (by norm_num [numZProbeReadingsAveraged]) (by omega)

/-- A concrete platform state with both probe filters valid, the
off-filter sum exceeding the on-filter sum. -/
def probeReadyPlatform : Platform :=
  { basePlatform with
      zProbeOnFilter :=
        { buf := List.replicate numZProbeReadingsAveraged 0, ind := 0, sum := 0,
          count := numZProbeReadingsAveraged }
      zProbeOffFilter :=
        { buf := List.replicate numZProbeReadingsAveraged 8, ind := 0, sum := 64,
          count := numZProbeReadingsAveraged } }

/-- Witness for C2: with on-sum 0 and off-sum 64 the scaled reading is
the signed quotient −64/32 = −2, and it is negative. -/
theorem zProbeType2SignedScaling_witness :
    probeReadyPlatform.nvData.zProbeType = 2 ∧
    (ZProbe probeReadyPlatform =
      Int.tdiv ((probeReadyPlatform.zProbeOnFilter.sum : Int) -
        (probeReadyPlatform.zProbeOffFilter.sum : Int)) (4 * numZProbeReadingsAveraged) ∧
     ((probeReadyPlatform.zProbeOnFilter.sum : Int) + 4 * numZProbeReadingsAveraged ≤
        (probeReadyPlatform.zProbeOffFilter.sum : Int) → ZProbe probeReadyPlatform < 0)) :=
  ⟨rfl, zProbeType2SignedScaling probeReadyPlatform rfl (by decide) (by decide)
    (by decide) (by decide)⟩

/-- C8: each tick advances the five-state cycle by exactly one step
(0 or 4 → 1, 1 → 2, 2 → 3, 3 → 4); in states 1 and 3 the current
heater's filter is fed with the conversion result and the heater index
advances by one, wrapping to zero at `HEATERS`; state 2 feeds the
probe on-filter and state 4 feeds the probe off-filter. -/
theorem tickFiveStateCycle (s : Platform) (r : Nat) :
    ((s.tickState = 0 ∨ s.tickState = 4) → (tick s r).tickState = 1) ∧
    (s.tickState = 1 → (tick s r).tickState = 2) ∧
    (s.tickState = 2 → (tick s r).tickState = 3) ∧
    (s.tickState = 3 → (tick s r).tickState = 4) ∧
    ((s.tickState = 1 ∨ s.tickState = 3) →
      (tick s r).thermistorFilters =
        s.thermistorFilters.set s.currentHeater (currentFilterAfter s r) ∧
      (tick s r).currentHeater =
        (if s.currentHeater + 1 = HEATERS then 0 else s.currentHeater + 1)) ∧
    (s.tickState = 2 → (tick s r).zProbeOnFilter =
      s.zProbeOnFilter.processReading numZProbeReadingsAveraged r) ∧
    (s.tickState = 4 → (tick s r).zProbeOffFilter =
      s.zProbeOffFilter.processReading numZProbeReadingsAveraged r) := by
  refine ⟨?_, ?_, ?_, ?_, ?_, ?_, ?_⟩
  · rintro (h | h) <;> simp [tick, h]
  · intro h; simp [tick, h]
  · intro h; simp [tick, h]
  · intro h; simp [tick, h]
  · intro h
    refine ⟨?_, ?_⟩
    · simp only [tick, if_pos h]
      by_cases hb : interlockTrips s r <;> simp [hb, SetHeater]
    · simp only [tick, if_pos h]
  · intro h; simp [tick, h]
  · intro h; simp [tick, h]

/-- Witness for C8: one concrete step out of each of the five states. -/
theorem tickFiveStateCycle_witness :
    (tick basePlatform 0).tickState = 1 ∧
    (tick { basePlatform with tickState := 1 } 0).tickState = 2 ∧
    (tick { basePlatform with tickState := 2 } 0).tickState = 3 ∧
    (tick { basePlatform with tickState := 3 } 0).tickState = 4 ∧
    (tick { basePlatform with tickState := 4 } 0).tickState = 1 :=
  ⟨(tickFiveStateCycle basePlatform 0).1 (Or.inl rfl),
   (tickFiveStateCycle { basePlatform with tickState := 1 } 0).2.1 rfl,
   (tickFiveStateCycle { basePlatform with tickState := 2 } 0).2.2.1 rfl,
   (tickFiveStateCycle { basePlatform with tickState := 3 } 0).2.2.2.1 rfl,
   (tickFiveStateCycle { basePlatform with tickState := 4 } 0).1 (Or.inr rfl)⟩

/-- C1: in a heater-processing state (tick state 1 or 3), when the
current heater's filter — as consulted by this invocation, i.e. with
this tick's sample folded in — is valid and its sum is below the
precomputed overheat-equivalent threshold or at/above the
disconnect-equivalent sum, that same invocation forces the heater's
commanded power to zero and sets the bad-temperature bit in
`errorCodeBits`; moreover the tick driver never clears error bits, so
the bad-temperature bit, once set, survives every subsequent tick. -/
theorem tickInterlockForcesHeaterOff (s : Platform) (r : Nat)
    (h13 : s.tickState = 1 ∨ s.tickState = 3)
    (hlen : s.currentHeater < s.heaterPower.length)
    (hvalid : (currentFilterAfter s r).isValid numThermistorReadingsAveraged)
    (hsum : (currentFilterAfter s r).sum < s.thermistorOverheatSums.getD s.currentHeater 0 ∨
      adDisconnectedReal * numThermistorReadingsAveraged ≤ (currentFilterAfter s r).sum) :
    ((tick s r).heaterPower.getD s.currentHeater 1 = 0 ∧
     hasBadTempBit (tick s r).errorCodeBits) ∧
    (∀ (s' : Platform) (r' : Nat), hasBadTempBit s'.errorCodeBits →
      hasBadTempBit (tick s' r').errorCodeBits) := by
  refine ⟨?_, fun s' r' h => hasBadTempBit_tick s' r' h⟩
  have htrip : interlockTrips s r := ⟨hvalid, hsum⟩
  constructor
  · simp only [tick, if_pos h13, if_pos htrip, SetHeater]
    simp [List.getD_eq_getElem?_getD, List.getElem?_set_self, hlen]
  · simp only [tick, if_pos h13, if_pos htrip, SetHeater]
    simp [hasBadTempBit, Nat.testBit_lor, ErrorBadTemp]

/-- A concrete platform state in tick state 1 whose current heater
filter becomes valid with this tick's sample, with a sum below the
overheat threshold. -/
def tickFaultPlatform : Platform :=
  { basePlatform with tickState := 1 }

/-- Witness for C1: in the concrete fault state the tick invocation
zeroes heater 0's commanded power and raises the bad-temperature
bit. -/
theorem tickInterlockForcesHeaterOff_witness :
    interlockTrips tickFaultPlatform 0 ∧
    ((tick tickFaultPlatform 0).heaterPower.getD 0 1 = 0 ∧
     hasBadTempBit (tick tickFaultPlatform 0).errorCodeBits) :=
  ⟨by decide,
   (tickInterlockForcesHeaterOff tickFaultPlatform 0 (Or.inl rfl) (by decide)
     (by decide) (by decide)).1⟩

/-! ## Setter idempotence lemmas -/

/-- The probe type stored by `SetZProbeType` is the clamped argument. -/
theorem SetZProbeType_nvType (s : Platform) (pt : Int) :
    (SetZProbeType s pt).nvData.zProbeType = (if 0 ≤ pt ∧ pt ≤ 3 then pt else 0) := by
  simp only [SetZProbeType, InitZProbe_nvData]
  split_ifs with h1 h2 h3 <;> simp_all [WriteNvData]

/-- `SetZProbeType` writes the backing store at most once. -/
theorem SetZProbeType_writeCount_le (s : Platform) (pt : Int) :
    (SetZProbeType s pt).writeCount ≤ s.writeCount + 1 := by
  simp only [SetZProbeType, InitZProbe_writeCount]
  split_ifs <;> simp [WriteNvData]

/-- `SetZProbeType` does not write when the clamped argument equals
the stored type. -/
theorem SetZProbeType_writeCount_noop (s : Platform) (pt : Int)
    (h : (if 0 ≤ pt ∧ pt ≤ 3 then pt else 0) = s.nvData.zProbeType) :
    (SetZProbeType s pt).writeCount = s.writeCount := by
  simp only [SetZProbeType, InitZProbe_writeCount]
  rw [if_neg (by simp [h])]

/-- `UpdateNetworkAddress` leaves the destination equal to the
source. -/
theorem updateNetworkAddress_fst (d x : Ip4) : (updateNetworkAddress d x).1 = x := by
  cases d; cases x
  simp only [updateNetworkAddress]
  split_ifs <;> simp_all

/-- `UpdateNetworkAddress` reports no change when source and
destination already agree. -/
theorem updateNetworkAddress_self_snd (x : Ip4) :
    (updateNetworkAddress x x).2 = false := by
  simp [updateNetworkAddress]

/-- Two identical `SetIPAddress` calls write at most once. -/
theorem SetIPAddress_twice (s : Platform) (ip : Ip4) :
    (SetIPAddress (SetIPAddress s ip) ip).writeCount ≤ s.writeCount + 1 := by
  simp only [SetIPAddress, WriteNvData]
  split_ifs <;>
    simp_all [updateNetworkAddress_fst, updateNetworkAddress_self_snd]

/-- Two identical `SetNetMask` calls write at most once. -/
theorem SetNetMask_twice (s : Platform) (nm : Ip4) :
    (SetNetMask (SetNetMask s nm) nm).writeCount ≤ s.writeCount + 1 := by
  simp only [SetNetMask, WriteNvData]
  split_ifs <;>
    simp_all [updateNetworkAddress_fst, updateNetworkAddress_self_snd]

/-- Two identical `SetGateWay` calls write at most once. -/
theorem SetGateWay_twice (s : Platform) (gw : Ip4) :
    (SetGateWay (SetGateWay s gw) gw).writeCount ≤ s.writeCount + 1 := by
  simp only [SetGateWay, WriteNvData]
  split_ifs <;>
    simp_all [updateNetworkAddress_fst, updateNetworkAddress_self_snd]

/-- Two identical `SetEmulating` calls write at most once. -/
theorem SetEmulating_twice (s : Platform) (c : Nat) :
    (SetEmulating (SetEmulating s c) c).writeCount ≤ s.writeCount + 1 := by
  by_cases hbad : c ≠ compatMe ∧ c ≠ compatReprapFirmware ∧ c ≠ compatMarlin
  · simp [SetEmulating, hbad]
  · have hc : c = compatMe ∨ c = compatReprapFirmware ∨ c = compatMarlin := by
      by_cases h1 : c = compatMe
      · exact Or.inl h1
      by_cases h2 : c = compatReprapFirmware
      · exact Or.inr (Or.inl h2)
      by_cases h3 : c = compatMarlin
      · exact Or.inr (Or.inr h3)
      exact absurd ⟨h1, h2, h3⟩ hbad
    have d1 : (compatMe = compatReprapFirmware) ↔ False := by
      simp [compatMe, compatReprapFirmware]
    have d2 : (compatMarlin = compatReprapFirmware) ↔ False := by
      simp [compatMarlin, compatReprapFirmware]
    rcases hc with rfl | rfl | rfl
    · by_cases hch : compatMe ≠ s.nvData.compatibility <;>
        simp [SetEmulating, WriteNvData, d1, hch]
    · by_cases hch : compatMe ≠ s.nvData.compatibility <;>
        simp [SetEmulating, WriteNvData, hch]
    · by_cases hch : compatMarlin ≠ s.nvData.compatibility <;>
        simp [SetEmulating, WriteNvData, d2, hch]

/-- Two identical `SetZProbeParameters` calls write at most once. -/
theorem SetZProbeParameters_twice (s : Platform) (params : ZProbeParameters) :
    ((SetZProbeParameters (SetZProbeParameters s params).1 params).1).writeCount ≤
      s.writeCount + 1 := by
  by_cases h0 : s.nvData.zProbeType = 0
  · by_cases hne : s.nvData.switchZProbeParameters ≠ params <;>
      simp [SetZProbeParameters, WriteNvData, h0, hne]
  · by_cases h12 : s.nvData.zProbeType = 1 ∨ s.nvData.zProbeType = 2
    · by_cases hne : s.nvData.irZProbeParameters ≠ params <;>
        simp [SetZProbeParameters, WriteNvData, h0, h12, hne]
    · by_cases h3 : s.nvData.zProbeType = 3
      · by_cases hne : s.nvData.alternateZProbeParameters ≠ params <;>
          simp [SetZProbeParameters, WriteNvData, h0, h12, h3, hne]
      · simp [SetZProbeParameters, WriteNvData, h0, h12, h3]

/-- Two identical `SetPidParameters` calls write at most once (for a
well-formed record holding one entry per heater). -/
theorem SetPidParameters_twice (s : Platform) (heater : Nat) (params : PidParameters)
    (hlen : s.nvData.pidParams.length = HEATERS) :
    (SetPidParameters (SetPidParameters s heater params) heater params).writeCount ≤
      s.writeCount + 1 := by
  by_cases h1 : heater < HEATERS ∧ params ≠ s.nvData.pidParams.getD heater dummyPid
  · have hlt : heater < s.nvData.pidParams.length := by omega
    unfold SetPidParameters WriteNvData
    rw [if_pos h1]
    rw [if_neg (by simp [List.getD_eq_getElem?_getD, List.getElem?_set_self, hlt])]
  · unfold SetPidParameters WriteNvData
    rw [if_neg h1, if_neg h1]
    omega

/-- Two identical `SetZProbeType` calls write at most once. -/
theorem SetZProbeType_twice (s : Platform) (pt : Int) :
    (SetZProbeType (SetZProbeType s pt) pt).writeCount ≤ s.writeCount + 1 := by
  have h2 := SetZProbeType_writeCount_noop (SetZProbeType s pt) pt
    (SetZProbeType_nvType s pt).symm
  rw [h2]
  exact SetZProbeType_writeCount_le s pt

/-- `SetZProbeAxes` writes unconditionally: two calls, two writes. -/
theorem SetZProbeAxes_twice (s : Platform) (axes : Bool × Bool × Bool) :
    (SetZProbeAxes (SetZProbeAxes s axes) axes).writeCount = s.writeCount + 2 := rfl

/-- Counterexample for C4: in the concrete base state the probe-axes
flags already hold (true, true, true), yet each of two identical
`SetZProbeAxes` calls writes the backing store — two writes across the
two calls, not at most one. -/
theorem setZProbeAxesDoubleWrite :
    basePlatform.nvData.zProbeAxes = (true, true, true) ∧
    basePlatform.writeCount = 0 ∧
    (SetZProbeAxes basePlatform (true, true, true)).writeCount = 1 ∧
    (SetZProbeAxes (SetZProbeAxes basePlatform (true, true, true))
      (true, true, true)).writeCount = 2 :=
  ⟨rfl, rfl, rfl, rfl⟩

/-- C4 (amended): every configuration setter except the probe-axes one
(probe type, probe calibration, heater PID/calibration, network
identity, emulation mode) persists at most once across two calls with
the same value — the second call compares and skips the write; the
probe-axes setter `SetZProbeAxes` instead writes unconditionally on
every call, so two identical calls write twice. -/
theorem settersIdempotentExceptZProbeAxes :
    (∀ (s : Platform) (pt : Int),
      (SetZProbeType (SetZProbeType s pt) pt).writeCount ≤ s.writeCount + 1) ∧
    (∀ (s : Platform) (params : ZProbeParameters),
      ((SetZProbeParameters (SetZProbeParameters s params).1 params).1).writeCount ≤
        s.writeCount + 1) ∧
    (∀ (s : Platform) (heater : Nat) (params : PidParameters),
      s.nvData.pidParams.length = HEATERS →
      (SetPidParameters (SetPidParameters s heater params) heater params).writeCount ≤
        s.writeCount + 1) ∧
    (∀ (s : Platform) (c : Nat),
      (SetEmulating (SetEmulating s c) c).writeCount ≤ s.writeCount + 1) ∧
    (∀ (s : Platform) (ip : Ip4),
      (SetIPAddress (SetIPAddress s ip) ip).writeCount ≤ s.writeCount + 1) ∧
    (∀ (s : Platform) (nm : Ip4),
      (SetNetMask (SetNetMask s nm) nm).writeCount ≤ s.writeCount + 1) ∧
    (∀ (s : Platform) (gw : Ip4),
      (SetGateWay (SetGateWay s gw) gw).writeCount ≤ s.writeCount + 1) ∧
    (∀ (s : Platform) (axes : Bool × Bool × Bool),
      (SetZProbeAxes (SetZProbeAxes s axes) axes).writeCount = s.writeCount + 2) :=
  ⟨SetZProbeType_twice, SetZProbeParameters_twice, SetPidParameters_twice,
   SetEmulating_twice, SetIPAddress_twice, SetNetMask_twice, SetGateWay_twice,
   SetZProbeAxes_twice⟩

/-- Witness for C4 (amended): the heater-calibration conjunct applied
at a concrete state whose record holds one entry per heater. -/
theorem settersIdempotentExceptZProbeAxes_witness :
    basePlatform.nvData.pidParams.length = HEATERS ∧
    (SetPidParameters (SetPidParameters basePlatform 0 dummyPid) 0 dummyPid).writeCount ≤
      basePlatform.writeCount + 1 :=
  ⟨by decide,
   settersIdempotentExceptZProbeAxes.2.2.1 basePlatform 0 dummyPid (by decide)⟩

/-- C5: if the persisted block's magic value mismatches, every field of
the record is rebuilt from compiled-in defaults (probe type 0 — the
switch —, magic stamped, per-heater calibration from the default
R25/Beta tables) and the whole record is persisted exactly once; on a
match, the persisted copy is used verbatim with no write. -/
theorem loadNvDataMagicCheck (E : ℚ → ℚ) (p : FlashData) (nu : Nat) :
    (p.magic ≠ magicValue →
      loadNvData E p nu = (defaultNvData E nu, 1) ∧
      (defaultNvData E nu).zProbeType = 0 ∧
      (defaultNvData E nu).magic = magicValue ∧
      (∀ i, i < HEATERS →
        (defaultNvData E nu).pidParams.getD i dummyPid = defaultPid E i)) ∧
    (p.magic = magicValue → loadNvData E p nu = (p, 0)) := by
  constructor
  · intro h
    refine ⟨by simp [loadNvData, h], rfl, rfl, ?_⟩
    intro i hi
    have h2 : i = 0 ∨ i = 1 := by
      have he : HEATERS = 2 := rfl
      omega
    rcases h2 with rfl | rfl <;> rfl
  · intro h
    simp [loadNvData, h]

/-- A persisted block whose magic value was lost (for example a fresh
or corrupt backing store). -/
def corruptFlashData : FlashData := { baseFlashData with magic := 0 }

/-- Witness for C5: loading the corrupt block rebuilds defaults and
writes once; loading the tagged block returns it verbatim with no
write. -/
theorem loadNvDataMagicCheck_witness :
    corruptFlashData.magic ≠ magicValue ∧
    baseFlashData.magic = magicValue ∧
    loadNvData (fun _ => 1) corruptFlashData 0 = (defaultNvData (fun _ => 1) 0, 1) ∧
    loadNvData (fun _ => 1) baseFlashData 0 = (baseFlashData, 0) :=
  ⟨by decide, rfl,
   ((loadNvDataMagicCheck (fun _ => 1) corruptFlashData 0).1 (by decide)).1,
   (loadNvDataMagicCheck (fun _ => 1) baseFlashData 0).2 rfl⟩

/-- `InitZProbe` drives the modulation output high for the IR probe
types 1 and 2. -/
theorem InitZProbe_modPin12 (s : Platform)
    (h : s.nvData.zProbeType = 1 ∨ s.nvData.zProbeType = 2) :
    (InitZProbe s).zProbeModPin = true := by
  simp only [InitZProbe]
  rw [if_pos h]

/-- `InitZProbe` drives the modulation output low for the alternate
probe type 3. -/
theorem InitZProbe_modPin3 (s : Platform) (h : s.nvData.zProbeType = 3) :
    (InitZProbe s).zProbeModPin = false := by
  simp only [InitZProbe]
  rw [if_neg (by simp [h]), if_pos h]

/-- C9: any `SetZProbeType` call that changes the stored probe type
re-initialises both probe filters, leaving them invalid, so the scaled
reading is 0 and remains 0 until a filter has accumulated a full cycle
of `numZProbeReadingsAveraged` fresh samples; for the IR-based types
the modulation output is driven to its configured level (high for
types 1 and 2, low for type 3). -/
theorem setZProbeTypeChangeResetsProbe (s : Platform) (pt : Int)
    (hchange : (if 0 ≤ pt ∧ pt ≤ 3 then pt else 0) ≠ s.nvData.zProbeType) :
    (¬ (SetZProbeType s pt).zProbeOnFilter.isValid numZProbeReadingsAveraged) ∧
    (¬ (SetZProbeType s pt).zProbeOffFilter.isValid numZProbeReadingsAveraged) ∧
    ZProbe (SetZProbeType s pt) = 0 ∧
    (∀ (t : Platform) (rs : List Nat), rs.length < numZProbeReadingsAveraged →
      t.zProbeOnFilter = feedFilter numZProbeReadingsAveraged
        (SetZProbeType s pt).zProbeOnFilter rs → ZProbe t = 0) ∧
    (∀ (t : Platform) (rs : List Nat), rs.length < numZProbeReadingsAveraged →
      t.zProbeOffFilter = feedFilter numZProbeReadingsAveraged
        (SetZProbeType s pt).zProbeOffFilter rs → ZProbe t = 0) ∧
    ((SetZProbeType s pt).nvData.zProbeType = 1 ∨
      (SetZProbeType s pt).nvData.zProbeType = 2 →
      (SetZProbeType s pt).zProbeModPin = true) ∧
    ((SetZProbeType s pt).nvData.zProbeType = 3 →
      (SetZProbeType s pt).zProbeModPin = false) := by
  have hon : (SetZProbeType s pt).zProbeOnFilter =
      AveragingFilter.reset numZProbeReadingsAveraged 0 := by
    simp only [SetZProbeType]
    rw [InitZProbe_onFilter]
  have hoff : (SetZProbeType s pt).zProbeOffFilter =
      AveragingFilter.reset numZProbeReadingsAveraged 0 := by
    simp only [SetZProbeType]
    rw [InitZProbe_offFilter]
  refine ⟨?_, ?_, ?_, ?_, ?_, ?_, ?_⟩
  · rw [hon]; decide
  · rw [hoff]; decide
  · exact ZProbe_eq_zero_of_not_isValid _ (Or.inl (by rw [hon]; decide))
  · intro t rs hlen ht
    refine ZProbe_eq_zero_of_not_isValid t (Or.inl ?_)
    rw [ht, hon]
    exact not_isValid_feed_reset _ 0 rs hlen
  · intro t rs hlen ht
    refine ZProbe_eq_zero_of_not_isValid t (Or.inr ?_)
    rw [ht, hoff]
    exact not_isValid_feed_reset _ 0 rs hlen
  · intro h12
    simp only [SetZProbeType] at h12 ⊢
    rw [InitZProbe_nvData] at h12
    exact InitZProbe_modPin12 _ h12
  · intro h3
    simp only [SetZProbeType] at h3 ⊢
    rw [InitZProbe_nvData] at h3
    exact InitZProbe_modPin3 _ h3

/-- Witness for C9: switching the base state (probe type 2) to type 1
resets both filters, makes the reading 0 and drives the modulation
output high. -/
theorem setZProbeTypeChangeResetsProbe_witness :
    ((if (0:Int) ≤ 1 ∧ (1:Int) ≤ 3 then (1:Int) else 0) ≠
        basePlatform.nvData.zProbeType) ∧
    (¬ (SetZProbeType basePlatform 1).zProbeOnFilter.isValid
        numZProbeReadingsAveraged) ∧
    ZProbe (SetZProbeType basePlatform 1) = 0 ∧
    (SetZProbeType basePlatform 1).zProbeModPin = true :=
  ⟨by decide,
   (setZProbeTypeChangeResetsProbe basePlatform 1 (by decide)).1,
   (setZProbeTypeChangeResetsProbe basePlatform 1 (by decide)).2.2.1,
   (setZProbeTypeChangeResetsProbe basePlatform 1 (by decide)).2.2.2.2.2.1
     (Or.inl (by decide))⟩

end RepRapPlatform

